/-
  Verification of the chat analysis orchestration engine
  (app/features/chat/services.py and app/shared/utils.py).

  The Python code is shallowly embedded: each agent's single attempt is a
  pure function from an abstraction of the inference client's reply to an
  `Except` value; the retry decorator is an explicit recursion that records
  the attempt count and the sleep delays; the orchestrator threads a trace
  of outbound inference calls.
-/
import Mathlib

deriving instance DecidableEq for Except

namespace ChatAnalysis

/-- Abstraction of the Python exceptions that flow through the pipeline
(app/core/exceptions.py).  `serviceError code last` stands for
`ServiceError(msg, error_code=code, details={"last_exception": str(last)})`;
the wrapped exception is kept as a value instead of its string rendering. -/
inductive PyError
  | validationError (msg : String)
  | openAIError (msg : String)
  | serviceError (code : String) (last : PyError)
  deriving DecidableEq, Repr

/-- Abstraction of a JSON value as produced by `json.loads`: we keep only
the distinctions the validation code observes.  `jNum` is a non-integer
number (Python `isinstance(x, int)` is false for it), `jBool` is kept
separate because Python `bool` is a subclass of `int`. -/
inductive JVal
  | jNull
  | jBool (b : Bool)
  | jInt (n : Int)
  | jNum
  | jStr (s : String)
  | jObj
  deriving DecidableEq, Repr

/-- Python `isinstance(x, int)` together with the coercion to the integer
value: true integers pass, and `bool` passes because it subclasses `int`. -/
def JVal.pyIntValue : Option JVal → Option Int
  | some (JVal.jInt n) => some n
  | some (JVal.jBool b) => some (if b then 1 else 0)
  | _ => none

/-- Outcome of one `retry_with_backoff` call (app/shared/utils.py):
`maxRetriesExceeded last` is the single aggregate
`ServiceError(..., error_code="MAX_RETRIES_EXCEEDED")` raised on
exhaustion, wrapping the last underlying exception; `reraised e` is an
exception not matching `exceptions` propagating out of the loop. -/
inductive RetryErr (E : Type)
  | maxRetriesExceeded (last : E)
  | reraised (e : E)
  deriving DecidableEq, Repr

/-- Result of running the retry loop: the final outcome, the number of
invocations of the wrapped operation, and the sleeps performed (seconds). -/
structure RetryOutcome (E α : Type) where
  result : Except (RetryErr E) α
  attempts : Nat
  delays : List ℚ
  deriving DecidableEq, Repr

/-- The loop body of `retry_with_backoff`'s wrapper: `attempt` is the
0-based index of the current attempt (`for attempt in range(max_retries+1)`)
and `remaining = max_retries - attempt` counts the retries still allowed
(`remaining = 0` is Python's `attempt == max_retries` break).  The wrapped
operation is modelled as a function of the attempt index; `catches e` is
membership of `e` in the decorator's `exceptions` tuple; the delay before
the next attempt is `backoff_factor * (2 ** attempt)`. -/
def retryGo {E α : Type} (op : Nat → Except E α) (catches : E → Bool)
    (backoffFactor : ℚ) (attempt : Nat) : Nat → RetryOutcome E α
  | 0 =>
    match op attempt with
    | Except.ok a => ⟨Except.ok a, 1, []⟩
    | Except.error e =>
      if catches e then ⟨Except.error (RetryErr.maxRetriesExceeded e), 1, []⟩
      else ⟨Except.error (RetryErr.reraised e), 1, []⟩
  | remaining + 1 =>
    match op attempt with
    | Except.ok a => ⟨Except.ok a, 1, []⟩
    | Except.error e =>
      if catches e then
        let rest := retryGo op catches backoffFactor (attempt + 1) remaining
        ⟨rest.result, rest.attempts + 1, (backoffFactor * 2 ^ attempt) :: rest.delays⟩
      else ⟨Except.error (RetryErr.reraised e), 1, []⟩

/-- `retry_with_backoff(max_retries, backoff_factor, exceptions)` applied
to an operation, started at attempt 0 (app/shared/utils.py lines 18-99). -/
def retry_with_backoff {E α : Type} (max_retries : Nat) (backoff_factor : ℚ)
    (catches : E → Bool) (op : Nat → Except E α) : RetryOutcome E α :=
  retryGo op catches backoff_factor 0 max_retries

/-- What one `client.chat.completions.create` call followed by
`json.loads` can yield, abstracted per agent: the create call itself
raised (`transportError`), the reply was not JSON (`badJson`,
`json.JSONDecodeError`), or it parsed and `α` records the fields the
agent reads from the resulting dict. -/
inductive AgentInput (α : Type)
  | transportError
  | badJson
  | parsed (a : α)
  deriving DecidableEq, Repr

/-- One attempt of `TriageAgent.analyze` (services.py lines 40-85), as a
function of the parsed reply's `primary_action` field.  A
`ValidationError` raised inside the `try` block is caught by the trailing
`except Exception` and re-raised as `OpenAIError`, so every failure leaves
the attempt as an `OpenAIError`. -/
def TriageAgent.analyzeOnce (inp : AgentInput (Option JVal)) : Except PyError String :=
  match inp with
  | AgentInput.transportError => Except.error (PyError.openAIError "Triage analysis failed")
  | AgentInput.badJson =>
      Except.error (PyError.openAIError "Invalid response format from triage analysis")
  | AgentInput.parsed action? =>
      match action? with
      | some (JVal.jStr a) =>
          if a = "FLAG" ∨ a = "IGNORE" ∨ a = "RESPOND" then Except.ok a
          else Except.error
            (PyError.openAIError "Triage analysis failed: Invalid triage action")
      | _ => Except.error
            (PyError.openAIError "Triage analysis failed: Invalid triage action")

/-- The two fields `RiskAgent.analyze` reads from the parsed reply. -/
structure RiskRaw where
  risk_update : Option JVal
  risk_score : Option JVal
  deriving DecidableEq, Repr

/-- The validated risk result: `{"risk_update": ..., "risk_score": ...}`. -/
structure RiskResult where
  risk_update : String
  risk_score : Int
  deriving DecidableEq, Repr

/-- One attempt of `RiskAgent.analyze` (services.py lines 97-152):
`risk_update` must be one of the three level strings and `risk_score`
must satisfy `isinstance(risk_score, int) and 0 <= risk_score <= 100`.
No band agreement between level and score is checked. -/
def RiskAgent.analyzeOnce (inp : AgentInput RiskRaw) : Except PyError RiskResult :=
  match inp with
  | AgentInput.transportError => Except.error (PyError.openAIError "Risk analysis failed")
  | AgentInput.badJson =>
      Except.error (PyError.openAIError "Invalid response format from risk analysis")
  | AgentInput.parsed raw =>
      match raw.risk_update with
      | some (JVal.jStr ru) =>
          if ru = "High" ∨ ru = "Medium" ∨ ru = "Low" then
            match JVal.pyIntValue raw.risk_score with
            | some n =>
                if 0 ≤ n ∧ n ≤ 100 then Except.ok ⟨ru, n⟩
                else Except.error
                  (PyError.openAIError "Risk analysis failed: Invalid risk score")
            | none => Except.error
                  (PyError.openAIError "Risk analysis failed: Invalid risk score")
          else Except.error
                  (PyError.openAIError "Risk analysis failed: Invalid risk level")
      | _ => Except.error
                  (PyError.openAIError "Risk analysis failed: Invalid risk level")

/-- The two fields `SentimentAgent.analyze` reads from the parsed reply. -/
structure SentimentRaw where
  sentiment : Option JVal
  sentiment_score : Option JVal
  deriving DecidableEq, Repr

/-- The validated sentiment result. -/
structure SentimentResult where
  sentiment : String
  sentiment_score : Int
  deriving DecidableEq, Repr

/-- One attempt of `SentimentAgent.analyze` (services.py lines 164-217):
`sentiment` must be one of the three category strings and
`sentiment_score` an `int` in `[0, 100]`; no band agreement is checked. -/
def SentimentAgent.analyzeOnce (inp : AgentInput SentimentRaw) : Except PyError SentimentResult :=
  match inp with
  | AgentInput.transportError => Except.error (PyError.openAIError "Sentiment analysis failed")
  | AgentInput.badJson =>
      Except.error (PyError.openAIError "Invalid response format from sentiment analysis")
  | AgentInput.parsed raw =>
      match raw.sentiment with
      | some (JVal.jStr s) =>
          if s = "Positive" ∨ s = "Neutral" ∨ s = "Negative" then
            match JVal.pyIntValue raw.sentiment_score with
            | some n =>
                if 0 ≤ n ∧ n ≤ 100 then Except.ok ⟨s, n⟩
                else Except.error
                  (PyError.openAIError "Sentiment analysis failed: Invalid sentiment score")
            | none => Except.error
                  (PyError.openAIError "Sentiment analysis failed: Invalid sentiment score")
          else Except.error
                  (PyError.openAIError "Sentiment analysis failed: Invalid sentiment")
      | _ => Except.error
                  (PyError.openAIError "Sentiment analysis failed: Invalid sentiment")

/-- The fields of the parsed event-detection reply.  The dict is returned
unchanged by the agent, so this also serves as the result type; absent
keys are `none`. -/
structure EventRaw where
  has_event : Option JVal
  event_details : Option JVal
  suggested_reminder : Option JVal
  internal_note : Option JVal
  deriving DecidableEq, Repr

/-- One attempt of `EventDetectionAgent.analyze` (services.py
lines 229-292): `has_event = result.get("has_event", False)` must be a
boolean; the raw dict is then returned as is — the optional fields are
never inspected. -/
def EventDetectionAgent.analyzeOnce (inp : AgentInput EventRaw) : Except PyError EventRaw :=
  match inp with
  | AgentInput.transportError => Except.error (PyError.openAIError "Event detection failed")
  | AgentInput.badJson =>
      Except.error (PyError.openAIError "Invalid response format from event detection")
  | AgentInput.parsed raw =>
      match raw.has_event.getD (JVal.jBool false) with
      | JVal.jBool _ => Except.ok raw
      | _ => Except.error
          (PyError.openAIError "Event detection failed: has_event must be a boolean")

/-- Python's `str.strip(c)`: remove every leading and trailing occurrence
of the character `c`. -/
def pyStripChar (c : Char) (s : String) : String :=
  String.mk (((s.data.dropWhile (fun x => x = c)).reverse.dropWhile (fun x => x = c)).reverse)

/-- The ASCII whitespace characters removed by Python's `str.strip()`:
space, tab, newline, carriage return, vertical tab, form feed. -/
def pyIsSpace (c : Char) : Bool :=
  c = ' ' ∨ c = Char.ofNat 9 ∨ c = Char.ofNat 10 ∨ c = Char.ofNat 13 ∨
    c = Char.ofNat 11 ∨ c = Char.ofNat 12

/-- Python's `str.strip()` with no argument: remove leading and trailing
whitespace. -/
def pyStripWhitespace (s : String) : String :=
  String.mk (((s.data.dropWhile pyIsSpace).reverse.dropWhile pyIsSpace).reverse)

/-- The double-quote and single-quote characters stripped by
`ResponseGenerator.generate`. -/
def doubleQuoteChar : Char := Char.ofNat 34

def singleQuoteChar : Char := Char.ofNat 39

/-- What one `create` call inside `ResponseGenerator.generate` yields:
the call raised, or it returned and `content` is the reply's
`choices[0].message.content` (possibly `None`). -/
inductive RespInput
  | transportError
  | content (c : Option String)
  deriving DecidableEq, Repr

/-- One attempt of the calling part of `ResponseGenerator.generate`
(services.py lines 328-372).  A `None` content makes `.strip()` raise
`AttributeError`, caught by `except Exception` and re-raised as
`OpenAIError`; otherwise the text is whitespace-stripped and then stripped
of double and single quotes. -/
def ResponseGenerator.generateOnce (inp : RespInput) : Except PyError String :=
  match inp with
  | RespInput.transportError =>
      Except.error (PyError.openAIError "Response generation failed")
  | RespInput.content none =>
      Except.error (PyError.openAIError "Response generation failed")
  | RespInput.content (some s) =>
      Except.ok (pyStripChar singleQuoteChar (pyStripChar doubleQuoteChar (pyStripWhitespace s)))

/-- A conversation message: the Python dict, kept as an association list
from keys to string values; `lookup` is `dict.get`. -/
abbrev Msg := List (String × String)

/-- The external inference client, modelled as a deterministic oracle:
for each agent, a function from the data that agent's request payload
carries (the analysed message; for risk additionally the triage action;
for response the action and the last message's content) and the 0-based
attempt index to the abstracted reply. -/
structure Oracle where
  triage : String → Nat → AgentInput (Option JVal)
  sentiment : String → Nat → AgentInput SentimentRaw
  event_detection : String → Nat → AgentInput EventRaw
  risk : String → String → Nat → AgentInput RiskRaw
  response : String → String → Nat → RespInput

/-- Outcome of a decorated agent method: its final result and the number
of inference calls it issued (= retry attempts, since each attempt makes
exactly one `create` call). -/
structure AgentRun (α : Type) where
  result : Except PyError α
  attempts : Nat
  deriving DecidableEq, Repr

/-- Run one agent method under its decorator
`@retry_with_backoff(max_retries=3, exceptions=(Exception,))`: every
error is caught and retried, exhaustion becomes the aggregate
`ServiceError`. -/
def runAgent {α : Type} (op : Nat → Except PyError α) : AgentRun α :=
  let r := retry_with_backoff 3 1 (fun _ => true) op
  { result :=
      match r.result with
      | Except.ok a => Except.ok a
      | Except.error (RetryErr.maxRetriesExceeded e) =>
          Except.error (PyError.serviceError "MAX_RETRIES_EXCEEDED" e)
      | Except.error (RetryErr.reraised e) => Except.error e
    attempts := r.attempts }

/-- `TriageAgent.analyze(message)` with its retry decorator. -/
def runTriage (o : Oracle) (message : String) : AgentRun String :=
  runAgent (fun attempt => TriageAgent.analyzeOnce (o.triage message attempt))

/-- `SentimentAgent.analyze(message)` with its retry decorator. -/
def runSentiment (o : Oracle) (message : String) : AgentRun SentimentResult :=
  runAgent (fun attempt => SentimentAgent.analyzeOnce (o.sentiment message attempt))

/-- `EventDetectionAgent.analyze(message)` with its retry decorator. -/
def runEventDetection (o : Oracle) (message : String) : AgentRun EventRaw :=
  runAgent (fun attempt => EventDetectionAgent.analyzeOnce (o.event_detection message attempt))

/-- `RiskAgent.analyze(message, primary_action)` with its retry decorator. -/
def runRisk (o : Oracle) (message : String) (primary_action : String) : AgentRun RiskResult :=
  runAgent (fun attempt => RiskAgent.analyzeOnce (o.risk message primary_action attempt))

/-- `ResponseGenerator.generate(conversation_history, primary_action,
risk_update)` (services.py lines 304-372): the two gates return `None`
before any inference call (`attempts = 0` inference calls); otherwise the
last message's `content` is read and the client is called under the retry
decorator. -/
def ResponseGenerator.generate (o : Oracle) (conversation_history : List Msg)
    (primary_action : String) (risk_update : String) : AgentRun (Option String) :=
  if (primary_action = "FLAG" ∧ risk_update = "High") ∨ primary_action = "IGNORE" then
    ⟨Except.ok none, 0⟩
  else if ¬ (primary_action = "RESPOND" ∨ primary_action = "FLAG") then
    ⟨Except.ok none, 0⟩
  else
    let last_message := conversation_history.getLast?.getD []
    let last_message_content := (last_message.lookup "content").getD ""
    let r := runAgent (fun attempt =>
      ResponseGenerator.generateOnce (o.response primary_action last_message_content attempt))
    ⟨match r.result with
     | Except.ok s => Except.ok (some s)
     | Except.error e => Except.error e,
     r.attempts⟩

/-- Which agent an outbound inference call belongs to; the orchestrator's
trace is the ordered list of these calls. -/
inductive CallKind
  | triageCall
  | sentimentCall
  | eventCall
  | riskCall
  | responseCall
  deriving DecidableEq, Repr

/-- The `full_analysis` field of the composite: the nominal breakdown, or
the fallback's `{"error": str(e)}` marker (the exception kept as a value). -/
inductive FullAnalysis
  | nominal (primary_action : String) (risk_update : String) (sentiment : String)
      (event_detection : EventRaw)
  | errorMarker (e : PyError)
  deriving DecidableEq, Repr

/-- `true` exactly on the fallback's error marker. -/
def FullAnalysis.isError : FullAnalysis → Bool
  | FullAnalysis.errorMarker _ => true
  | _ => false

/-- The dict returned by `ChatOrchestrator.analyze_message`. -/
structure Composite where
  action : String
  risk_update : String
  risk_score : Int
  sentiment : String
  sentiment_score : Int
  response_to_send : Option String
  event_detection : EventRaw
  full_analysis : FullAnalysis
  deriving DecidableEq, Repr

/-- The safe default returned when any step of the pipeline raises
(services.py lines 460-474); its `event_detection` is the literal
`{"has_event": False}`. -/
def fallbackComposite (e : PyError) : Composite :=
  { action := "FLAG"
    risk_update := "High"
    risk_score := 100
    sentiment := "Neutral"
    sentiment_score := 50
    response_to_send := none
    event_detection :=
      { has_event := some (JVal.jBool false)
        event_details := none
        suggested_reminder := none
        internal_note := none }
    full_analysis := FullAnalysis.errorMarker e }

/-- The inference calls issued by the `asyncio.gather` fan-out of the
three independent agents, recorded triage-first (concurrent
interleavings differ only in the order among these three). -/
def gatherTrace (o : Oracle) (current_message : String) : List CallKind :=
  List.replicate (runTriage o current_message).attempts CallKind.triageCall ++
    List.replicate (runSentiment o current_message).attempts CallKind.sentimentCall ++
    List.replicate (runEventDetection o current_message).attempts CallKind.eventCall

/-- The body of `analyze_message`'s `try` block, past the precondition
checks.  The three independent agents run under `asyncio.gather`; when
several of them fail, the error propagated by `gather` is modelled as the
first failing one in triage/sentiment/event order.  Risk runs after the
join, response generation after risk; any failure yields the fallback
composite instead of an exception. -/
def assemblePipeline (o : Oracle) (conversation_history : List Msg)
    (current_message : String) : Except PyError Composite × List CallKind :=
  match (runTriage o current_message).result, (runSentiment o current_message).result,
      (runEventDetection o current_message).result with
  | Except.ok primary_action, Except.ok sentiment_result, Except.ok event_detection =>
      match (runRisk o current_message primary_action).result with
      | Except.ok risk_result =>
          match (ResponseGenerator.generate o conversation_history primary_action
              risk_result.risk_update).result with
          | Except.ok response_to_send =>
              (Except.ok
                { action := primary_action
                  risk_update := risk_result.risk_update
                  risk_score := risk_result.risk_score
                  sentiment := sentiment_result.sentiment
                  sentiment_score := sentiment_result.sentiment_score
                  response_to_send := response_to_send
                  event_detection := event_detection
                  full_analysis := FullAnalysis.nominal primary_action
                    risk_result.risk_update sentiment_result.sentiment event_detection },
               gatherTrace o current_message ++
                 List.replicate (runRisk o current_message primary_action).attempts
                   CallKind.riskCall ++
                 List.replicate (ResponseGenerator.generate o conversation_history
                   primary_action risk_result.risk_update).attempts CallKind.responseCall)
          | Except.error e =>
              (Except.ok (fallbackComposite e),
               gatherTrace o current_message ++
                 List.replicate (runRisk o current_message primary_action).attempts
                   CallKind.riskCall ++
                 List.replicate (ResponseGenerator.generate o conversation_history
                   primary_action risk_result.risk_update).attempts CallKind.responseCall)
      | Except.error e =>
          (Except.ok (fallbackComposite e),
           gatherTrace o current_message ++
             List.replicate (runRisk o current_message primary_action).attempts
               CallKind.riskCall)
  | Except.error e, _, _ => (Except.ok (fallbackComposite e), gatherTrace o current_message)
  | Except.ok _, Except.error e, _ =>
      (Except.ok (fallbackComposite e), gatherTrace o current_message)
  | Except.ok _, Except.ok _, Except.error e =>
      (Except.ok (fallbackComposite e), gatherTrace o current_message)

/-- `ChatOrchestrator.analyze_message(client_info, conversation_history)`
(services.py lines 386-474): the precondition checks raise
`ValidationError` (left component `Except.error`) before any inference
call; afterwards the pipeline body never raises.  `client_info` is used
only for logging and does not influence the result.  The right component
is the ordered trace of outbound inference calls. -/
def ChatOrchestrator.analyze_message (o : Oracle) (client_info : List (String × String))
    (conversation_history : List Msg) : Except PyError Composite × List CallKind :=
  match conversation_history.getLast? with
  | none => (Except.error (PyError.validationError "Conversation history cannot be empty"), [])
  | some lastEntry =>
      if (lastEntry.lookup "content").getD "" = "" then
        (Except.error (PyError.validationError "Current message content is empty"), [])
      else
        assemblePipeline o conversation_history ((lastEntry.lookup "content").getD "")

/-- A client whose every reply is nominal: triage RESPOND, sentiment
Neutral/45, no event, risk Low/10, response text. -/
def okOracle : Oracle :=
  { triage := fun _ _ => AgentInput.parsed (some (JVal.jStr "RESPOND"))
    sentiment := fun _ _ => AgentInput.parsed ⟨some (JVal.jStr "Neutral"), some (JVal.jInt 45)⟩
    event_detection := fun _ _ => AgentInput.parsed ⟨some (JVal.jBool false), none, none, none⟩
    risk := fun _ _ _ => AgentInput.parsed ⟨some (JVal.jStr "Low"), some (JVal.jInt 10)⟩
    response := fun _ _ _ => RespInput.content (some "Sure thing!") }

/-- Like `okOracle` but the risk reply pairs level Low with score 95,
outside Low's documented band while inside `[0, 100]`. -/
def badRiskOracle : Oracle :=
  { okOracle with
    risk := fun _ _ _ => AgentInput.parsed ⟨some (JVal.jStr "Low"), some (JVal.jInt 95)⟩ }

/-- Like `okOracle` but every triage reply carries the non-enumerated
action value MAYBE, an output-contract (validation) failure. -/
def badTriageOracle : Oracle :=
  { okOracle with triage := fun _ _ => AgentInput.parsed (some (JVal.jStr "MAYBE")) }

/-- Like `okOracle` but every triage call raises a transport error. -/
def triageDownOracle : Oracle :=
  { okOracle with triage := fun _ _ => AgentInput.transportError }

/-- A one-message conversation history. -/
def helloHistory : List Msg := [[("content", "Hello")]]

/-- A one-message history whose last text is whitespace only. -/
def wsHistory : List Msg := [[("content", " ")]]

/-- The composite `analyze_message` produces for `okOracle` on a
single-message history. -/
def cOk : Composite :=
  { action := "RESPOND", risk_update := "Low", risk_score := 10
    sentiment := "Neutral", sentiment_score := 45
    response_to_send := some "Sure thing!"
    event_detection := ⟨some (JVal.jBool false), none, none, none⟩
    full_analysis := FullAnalysis.nominal "RESPOND" "Low" "Neutral"
      ⟨some (JVal.jBool false), none, none, none⟩ }

/-- The trace `analyze_message` produces for `okOracle` on a
single-message history: one call per agent. -/
def okTrace : List CallKind :=
  [CallKind.triageCall, CallKind.sentimentCall, CallKind.eventCall,
   CallKind.riskCall, CallKind.responseCall]

/-- An operation for exercising the retry combinator: fails on the first
two attempts, succeeds on the third. -/
def retryDemoOp : Nat → Except String Nat :=
  fun n => if n < 2 then Except.error "boom" else Except.ok 42

/-- An event-detection reply with `has_event` false and a non-null
`internal_note`. -/
def eventRawBad : EventRaw :=
  ⟨some (JVal.jBool false), none, none, some (JVal.jStr "note")⟩

/-- `true` exactly on JSON booleans. -/
def JVal.isBool : JVal → Bool
  | JVal.jBool _ => true
  | _ => false

/-- The risk band the spec's words associate to each risk level
(spec-side definition, compared against the code's behaviour). -/
def specRiskBand (level : String) (score : Int) : Bool :=
  if level = "High" then decide (70 ≤ score ∧ score ≤ 100)
  else if level = "Medium" then decide (40 ≤ score ∧ score ≤ 69)
  else if level = "Low" then decide (0 ≤ score ∧ score ≤ 39)
  else false

/-- The sentiment band the spec's words associate to each sentiment
(spec-side definition, compared against the code's behaviour). -/
def specSentimentBand (sentiment : String) (score : Int) : Bool :=
  if sentiment = "Positive" then decide (0 ≤ score ∧ score ≤ 30)
  else if sentiment = "Neutral" then decide (31 ≤ score ∧ score ≤ 60)
  else if sentiment = "Negative" then decide (61 ≤ score ∧ score ≤ 100)
  else false


/-! ### Properties of the retry combinator -/

theorem retryGo_attempts_pos {E α : Type} (op : Nat → Except E α) (catches : E → Bool)
    (f : ℚ) (a r : Nat) : 1 ≤ (retryGo op catches f a r).attempts := by
  induction r generalizing a with
  | zero =>
      unfold retryGo
      cases hop : op a <;> simp only [hop]
      case error e => split <;> simp
      case ok v => simp
  | succ n ih =>
      unfold retryGo
      cases hop : op a <;> simp only [hop]
      case error e => split <;> simp
      case ok v => simp

theorem retryGo_attempts_le {E α : Type} (op : Nat → Except E α) (catches : E → Bool)
    (f : ℚ) (a r : Nat) : (retryGo op catches f a r).attempts ≤ r + 1 := by
  induction r generalizing a with
  | zero =>
      unfold retryGo
      cases hop : op a <;> simp only [hop]
      case error e => split <;> simp
      case ok v => simp
  | succ n ih =>
      unfold retryGo
      cases hop : op a <;> simp only [hop]
      case error e =>
        split
        · have := ih (a + 1); simp; omega
        · simp
      case ok v => simp

theorem retryGo_ok {E α : Type} (op : Nat → Except E α) (catches : E → Bool)
    (f : ℚ) (a r : Nat) (x : α) :
    (retryGo op catches f a r).result = Except.ok x →
      op (a + ((retryGo op catches f a r).attempts - 1)) = Except.ok x := by
  induction r generalizing a with
  | zero =>
      unfold retryGo
      cases hop : op a <;> simp only [hop]
      case error e => split <;> simp
      case ok v => simp; intro h; subst h; exact hop
  | succ n ih =>
      unfold retryGo
      cases hop : op a <;> simp only [hop]
      case error e =>
        split
        · simp only []
          intro h
          have h1 := retryGo_attempts_pos op catches f (a + 1) n
          have h2 := ih (a + 1) h
          rw [show a + ((retryGo op catches f (a + 1) n).attempts + 1 - 1) =
            a + 1 + ((retryGo op catches f (a + 1) n).attempts - 1) by omega]
          exact h2
        · simp
      case ok v => simp; intro h; subst h; exact hop

theorem retryGo_exhausted {E α : Type} (op : Nat → Except E α) (catches : E → Bool)
    (f : ℚ) (a r : Nat) (e : E) :
    (retryGo op catches f a r).result = Except.error (RetryErr.maxRetriesExceeded e) →
      (retryGo op catches f a r).attempts = r + 1 ∧ op (a + r) = Except.error e ∧
        catches e = true := by
  induction r generalizing a with
  | zero =>
      unfold retryGo
      cases hop : op a <;> simp only [hop]
      case error e2 =>
        split
        · rename_i hc
          intro h
          simp only [RetryOutcome.result, Except.error.injEq,
            RetryErr.maxRetriesExceeded.injEq] at h
          subst h
          exact ⟨rfl, by simpa using hop, hc⟩
        · simp
      case ok v => simp
  | succ n ih =>
      unfold retryGo
      cases hop : op a <;> simp only [hop]
      case error e2 =>
        split
        · intro h
          simp only [RetryOutcome.result] at h
          obtain ⟨h1, h2, h3⟩ := ih (a + 1) h
          refine ⟨by simp only [RetryOutcome.attempts]; omega, ?_, h3⟩
          rw [show a + (n + 1) = a + 1 + n by omega]
          exact h2
        · simp
      case ok v => simp

theorem retryGo_reraised {E α : Type} (op : Nat → Except E α) (catches : E → Bool)
    (f : ℚ) (a r : Nat) (e : E) :
    (retryGo op catches f a r).result = Except.error (RetryErr.reraised e) →
      op (a + ((retryGo op catches f a r).attempts - 1)) = Except.error e ∧
        catches e = false := by
  induction r generalizing a with
  | zero =>
      unfold retryGo
      cases hop : op a <;> simp only [hop]
      case error e2 =>
        split
        · simp
        · rename_i hc
          intro h
          simp only [RetryOutcome.result, Except.error.injEq, RetryErr.reraised.injEq] at h
          subst h
          exact ⟨by simpa using hop, by simpa using hc⟩
      case ok v => simp
  | succ n ih =>
      unfold retryGo
      cases hop : op a <;> simp only [hop]
      case error e2 =>
        split
        · intro h
          simp only [RetryOutcome.result] at h
          obtain ⟨h1, h2⟩ := ih (a + 1) h
          have hp := retryGo_attempts_pos op catches f (a + 1) n
          refine ⟨?_, h2⟩
          simp only [RetryOutcome.attempts]
          rw [show a + ((retryGo op catches f (a + 1) n).attempts + 1 - 1) =
            a + 1 + ((retryGo op catches f (a + 1) n).attempts - 1) by omega]
          exact h1
        · rename_i hc
          intro h
          simp only [RetryOutcome.result, Except.error.injEq, RetryErr.reraised.injEq] at h
          subst h
          exact ⟨by simpa using hop, by simpa using hc⟩
      case ok v => simp

theorem retryGo_earlier {E α : Type} (op : Nat → Except E α) (catches : E → Bool)
    (f : ℚ) (a r : Nat) (j : Nat) :
    j + 1 < (retryGo op catches f a r).attempts →
      ∃ e, op (a + j) = Except.error e ∧ catches e = true := by
  induction r generalizing a j with
  | zero =>
      unfold retryGo
      cases hop : op a <;> simp only [hop]
      case error e => split <;> simp
      case ok v => simp
  | succ n ih =>
      unfold retryGo
      cases hop : op a <;> simp only [hop]
      case error e =>
        split
        · rename_i hc
          simp only [RetryOutcome.attempts]
          intro hj
          match j with
          | 0 => exact ⟨e, by simpa using hop, hc⟩
          | k + 1 =>
              obtain ⟨e2, he2, hc2⟩ := ih (a + 1) k (by omega)
              exact ⟨e2, by rw [show a + (k + 1) = a + 1 + k by omega]; exact he2, hc2⟩
        · simp
      case ok v => simp

theorem delays_cons_range (f : ℚ) (a m : Nat) :
    f * 2 ^ a :: (List.range m).map (fun i => f * 2 ^ (a + 1 + i)) =
      (List.range (m + 1)).map (fun i => f * 2 ^ (a + i)) := by
  rw [List.range_succ_eq_map, List.map_cons, List.map_map]
  refine congrArg₂ _ (by norm_num) ?_
  refine List.map_congr_left fun i _ => ?_
  simp only [Function.comp_apply]
  have h : a + 1 + i = a + Nat.succ i := by omega
  rw [h]

theorem retryGo_delays {E α : Type} (op : Nat → Except E α) (catches : E → Bool)
    (f : ℚ) (a r : Nat) :
    (retryGo op catches f a r).delays =
      (List.range ((retryGo op catches f a r).attempts - 1)).map (fun i => f * 2 ^ (a + i)) := by
  induction r generalizing a with
  | zero =>
      unfold retryGo
      cases hop : op a <;> simp only [hop]
      case error e => split <;> simp
      case ok v => simp
  | succ n ih =>
      unfold retryGo
      cases hop : op a <;> simp only [hop]
      case error e =>
        split
        · have hp := retryGo_attempts_pos op catches f (a + 1) n
          have hd := ih (a + 1)
          simp only [RetryOutcome.delays, RetryOutcome.attempts, Nat.add_sub_cancel]
          rw [hd]
          have key := delays_cons_range f a ((retryGo op catches f (a + 1) n).attempts - 1)
          rw [show ((retryGo op catches f (a + 1) n).attempts - 1) + 1 =
            (retryGo op catches f (a + 1) n).attempts by omega] at key
          exact key
        · simp
      case ok v => simp

/-! ### Properties of `runAgent` (the decorator as the agents configure it) -/

theorem runAgent_attempts_pos {α : Type} (op : Nat → Except PyError α) :
    1 ≤ (runAgent op).attempts :=
  retryGo_attempts_pos op (fun _ => true) 1 0 3

theorem runAgent_attempts_le {α : Type} (op : Nat → Except PyError α) :
    (runAgent op).attempts ≤ 4 :=
  retryGo_attempts_le op (fun _ => true) 1 0 3

theorem runAgent_ok {α : Type} (op : Nat → Except PyError α) (x : α) :
    (runAgent op).result = Except.ok x → ∃ n, op n = Except.ok x := by
  unfold runAgent retry_with_backoff
  cases hr : (retryGo op (fun _ => true) 1 0 3).result
  case ok v =>
      simp only [hr]
      intro h
      cases h
      exact ⟨0 + ((retryGo op (fun _ => true) 1 0 3).attempts - 1),
        retryGo_ok op (fun _ => true) 1 0 3 _ hr⟩
  case error re =>
      cases re <;> simp [hr]

theorem runAgent_error {α : Type} (op : Nat → Except PyError α) (e : PyError) :
    (runAgent op).result = Except.error e →
      ∃ last, e = PyError.serviceError "MAX_RETRIES_EXCEEDED" last ∧
        op 3 = Except.error last ∧ (runAgent op).attempts = 4 := by
  unfold runAgent retry_with_backoff
  cases hr : (retryGo op (fun _ => true) 1 0 3).result
  case ok v => simp [hr]
  case error re =>
      cases re
      case maxRetriesExceeded last =>
          simp only [hr, Except.error.injEq]
          intro h
          subst h
          obtain ⟨h1, h2, _⟩ := retryGo_exhausted op (fun _ => true) 1 0 3 last hr
          exact ⟨last, rfl, by simpa using h2, h1⟩
      case reraised e2 =>
          obtain ⟨_, hc⟩ := retryGo_reraised op (fun _ => true) 1 0 3 e2 hr
          simp at hc

/-! ### Validation facts about single agent attempts -/

theorem triage_analyzeOnce_valid (inp : AgentInput (Option JVal)) (a : String) :
    TriageAgent.analyzeOnce inp = Except.ok a →
      a = "FLAG" ∨ a = "IGNORE" ∨ a = "RESPOND" := by
  unfold TriageAgent.analyzeOnce
  cases inp
  case transportError => simp
  case badJson => simp
  case parsed action? =>
      simp only []
      split
      · rename_i s
        split
        · rename_i hs
          intro h
          cases h
          exact hs
        · simp
      · simp

theorem risk_analyzeOnce_valid (inp : AgentInput RiskRaw) (r : RiskResult) :
    RiskAgent.analyzeOnce inp = Except.ok r →
      (r.risk_update = "High" ∨ r.risk_update = "Medium" ∨ r.risk_update = "Low") ∧
        0 ≤ r.risk_score ∧ r.risk_score ≤ 100 := by
  unfold RiskAgent.analyzeOnce
  cases inp
  case transportError => simp
  case badJson => simp
  case parsed raw =>
      simp only []
      split
      · rename_i s
        split
        · rename_i hs
          split
          · rename_i n hn
            split
            · rename_i hrange
              intro h
              cases h
              exact ⟨hs, hrange.1, hrange.2⟩
            · simp
          · simp
        · simp
      · simp

theorem sentiment_analyzeOnce_valid (inp : AgentInput SentimentRaw) (r : SentimentResult) :
    SentimentAgent.analyzeOnce inp = Except.ok r →
      (r.sentiment = "Positive" ∨ r.sentiment = "Neutral" ∨ r.sentiment = "Negative") ∧
        0 ≤ r.sentiment_score ∧ r.sentiment_score ≤ 100 := by
  unfold SentimentAgent.analyzeOnce
  cases inp
  case transportError => simp
  case badJson => simp
  case parsed raw =>
      simp only []
      split
      · rename_i s
        split
        · rename_i hs
          split
          · rename_i n hn
            split
            · rename_i hrange
              intro h
              cases h
              exact ⟨hs, hrange.1, hrange.2⟩
            · simp
          · simp
        · simp
      · simp

/-- Everything `runTriage` accepts is one of the three enumerated actions. -/
theorem runTriage_ok (o : Oracle) (m : String) (a : String) :
    (runTriage o m).result = Except.ok a → a = "FLAG" ∨ a = "IGNORE" ∨ a = "RESPOND" := by
  intro h
  obtain ⟨n, hn⟩ := runAgent_ok _ a h
  exact triage_analyzeOnce_valid _ a hn

/-- Everything `runRisk` accepts has an enumerated level and a score in `[0, 100]`. -/
theorem runRisk_ok (o : Oracle) (m pa : String) (r : RiskResult) :
    (runRisk o m pa).result = Except.ok r →
      (r.risk_update = "High" ∨ r.risk_update = "Medium" ∨ r.risk_update = "Low") ∧
        0 ≤ r.risk_score ∧ r.risk_score ≤ 100 := by
  intro h
  obtain ⟨n, hn⟩ := runAgent_ok _ r h
  exact risk_analyzeOnce_valid _ r hn

/-- Everything `runSentiment` accepts has an enumerated sentiment and a score in `[0, 100]`. -/
theorem runSentiment_ok (o : Oracle) (m : String) (r : SentimentResult) :
    (runSentiment o m).result = Except.ok r →
      (r.sentiment = "Positive" ∨ r.sentiment = "Neutral" ∨ r.sentiment = "Negative") ∧
        0 ≤ r.sentiment_score ∧ r.sentiment_score ≤ 100 := by
  intro h
  obtain ⟨n, hn⟩ := runAgent_ok _ r h
  exact sentiment_analyzeOnce_valid _ r hn

/-! ### Claim theorems -/

/-- C1: for every client, every history passing the precondition checks,
and every behaviour of the inference client, `analyze_message` returns a
composite rather than raising; whenever any pipeline step (triage,
sentiment, event detection, risk, or response generation) fails
terminally, the returned composite is exactly the deterministic fallback
for that step's error — action FLAG, risk High/100, sentiment Neutral/50,
no response, `has_event` false, and the error marker embedded in
`full_analysis` — and conversely any returned composite carrying an error
marker is that fallback. -/
theorem analyze_message_never_raises_fallback_shape (o : Oracle)
    (ci : List (String × String)) (h : List Msg) (last : Msg)
    (h1 : h.getLast? = some last) (h2 : (last.lookup "content").getD "" ≠ "") :
    (∃ c, (ChatOrchestrator.analyze_message o ci h).1 = Except.ok c) ∧
    (∀ e, (runTriage o ((last.lookup "content").getD "")).result = Except.error e →
      (ChatOrchestrator.analyze_message o ci h).1 = Except.ok (fallbackComposite e)) ∧
    (∀ e, (∃ a, (runTriage o ((last.lookup "content").getD "")).result = Except.ok a) →
      (runSentiment o ((last.lookup "content").getD "")).result = Except.error e →
      (ChatOrchestrator.analyze_message o ci h).1 = Except.ok (fallbackComposite e)) ∧
    (∀ e, (∃ a, (runTriage o ((last.lookup "content").getD "")).result = Except.ok a) →
      (∃ s, (runSentiment o ((last.lookup "content").getD "")).result = Except.ok s) →
      (runEventDetection o ((last.lookup "content").getD "")).result = Except.error e →
      (ChatOrchestrator.analyze_message o ci h).1 = Except.ok (fallbackComposite e)) ∧
    (∀ a e, (runTriage o ((last.lookup "content").getD "")).result = Except.ok a →
      (∃ s, (runSentiment o ((last.lookup "content").getD "")).result = Except.ok s) →
      (∃ ed, (runEventDetection o ((last.lookup "content").getD "")).result = Except.ok ed) →
      (runRisk o ((last.lookup "content").getD "") a).result = Except.error e →
      (ChatOrchestrator.analyze_message o ci h).1 = Except.ok (fallbackComposite e)) ∧
    (∀ a r e, (runTriage o ((last.lookup "content").getD "")).result = Except.ok a →
      (∃ s, (runSentiment o ((last.lookup "content").getD "")).result = Except.ok s) →
      (∃ ed, (runEventDetection o ((last.lookup "content").getD "")).result = Except.ok ed) →
      (runRisk o ((last.lookup "content").getD "") a).result = Except.ok r →
      (ResponseGenerator.generate o h a r.risk_update).result = Except.error e →
      (ChatOrchestrator.analyze_message o ci h).1 = Except.ok (fallbackComposite e)) ∧
    (∀ c e, (ChatOrchestrator.analyze_message o ci h).1 = Except.ok c →
      c.full_analysis = FullAnalysis.errorMarker e → c = fallbackComposite e) ∧
    (∀ e, (fallbackComposite e).action = "FLAG" ∧
      (fallbackComposite e).risk_update = "High" ∧
      (fallbackComposite e).risk_score = 100 ∧
      (fallbackComposite e).sentiment = "Neutral" ∧
      (fallbackComposite e).sentiment_score = 50 ∧
      (fallbackComposite e).response_to_send = none ∧
      (fallbackComposite e).event_detection =
        ⟨some (JVal.jBool false), none, none, none⟩ ∧
      (fallbackComposite e).full_analysis = FullAnalysis.errorMarker e) := by
  unfold ChatOrchestrator.analyze_message
  simp only [h1]
  rw [if_neg h2]
  unfold assemblePipeline
  cases htr : (runTriage o ((last.lookup "content").getD "")).result <;>
    cases hsr : (runSentiment o ((last.lookup "content").getD "")).result <;>
      cases her : (runEventDetection o ((last.lookup "content").getD "")).result <;>
        simp only [htr, hsr, her]
  case ok.ok.ok pa sres edet =>
      cases hrr : (runRisk o ((last.lookup "content").getD "") pa).result <;> simp only [hrr]
      case error e0 =>
          refine ⟨⟨fallbackComposite e0, rfl⟩, ?_, ?_, ?_, ?_, ?_, ?_, ?_⟩
          · intro e he
            exact absurd he (by simp)
          · intro e _ he
            exact absurd he (by simp)
          · intro e _ _ he
            exact absurd he (by simp)
          · intro a e ha _ _ hrisk
            cases ha
            rw [hrr] at hrisk
            simp only [Except.error.injEq] at hrisk
            rw [hrisk]
          · intro a r e ha _ _ hrisk _
            cases ha
            rw [hrr] at hrisk
            exact absurd hrisk (by simp)
          · intro c e hr hm
            cases hr
            simp only [fallbackComposite, FullAnalysis.errorMarker.injEq] at hm
            rw [hm]
          · intro e
            exact ⟨rfl, rfl, rfl, rfl, rfl, rfl, rfl, rfl⟩
      case ok rres =>
          cases hresp : (ResponseGenerator.generate o h pa rres.risk_update).result <;>
            simp only [hresp]
          case error e0 =>
              refine ⟨⟨fallbackComposite e0, rfl⟩, ?_, ?_, ?_, ?_, ?_, ?_, ?_⟩
              · intro e he
                exact absurd he (by simp)
              · intro e _ he
                exact absurd he (by simp)
              · intro e _ _ he
                exact absurd he (by simp)
              · intro a e ha _ _ hrisk
                cases ha
                rw [hrr] at hrisk
                exact absurd hrisk (by simp)
              · intro a r e ha _ _ hrisk hgen
                cases ha
                rw [hrr] at hrisk
                simp only [Except.ok.injEq] at hrisk
                subst hrisk
                rw [hresp] at hgen
                simp only [Except.error.injEq] at hgen
                rw [hgen]
              · intro c e hr hm
                cases hr
                simp only [fallbackComposite, FullAnalysis.errorMarker.injEq] at hm
                rw [hm]
              · intro e
                exact ⟨rfl, rfl, rfl, rfl, rfl, rfl, rfl, rfl⟩
          case ok resp =>
              refine ⟨⟨_, rfl⟩, ?_, ?_, ?_, ?_, ?_, ?_, ?_⟩
              · intro e he
                exact absurd he (by simp)
              · intro e _ he
                exact absurd he (by simp)
              · intro e _ _ he
                exact absurd he (by simp)
              · intro a e ha _ _ hrisk
                cases ha
                rw [hrr] at hrisk
                exact absurd hrisk (by simp)
              · intro a r e ha _ _ hrisk hgen
                cases ha
                rw [hrr] at hrisk
                simp only [Except.ok.injEq] at hrisk
                subst hrisk
                rw [hresp] at hgen
                exact absurd hgen (by simp)
              · intro c e hr hm
                cases hr
                simp at hm
              · intro e
                exact ⟨rfl, rfl, rfl, rfl, rfl, rfl, rfl, rfl⟩
  case error.ok.ok e0 sres edet =>
      refine ⟨⟨fallbackComposite e0, rfl⟩, ?_, ?_, ?_, ?_, ?_, ?_, ?_⟩
      · intro e he
        simp only [Except.error.injEq] at he
        rw [he]
      · intro e ⟨a, ha⟩ _
        exact absurd ha (by simp)
      · intro e ⟨a, ha⟩ _ _
        exact absurd ha (by simp)
      · intro a e ha _ _ _
        exact absurd ha (by simp)
      · intro a r e ha _ _ _ _
        exact absurd ha (by simp)
      · intro c e hr hm
        cases hr
        simp only [fallbackComposite, FullAnalysis.errorMarker.injEq] at hm
        rw [hm]
      · intro e
        exact ⟨rfl, rfl, rfl, rfl, rfl, rfl, rfl, rfl⟩
  case error.ok.error e0 sres e2 =>
      refine ⟨⟨fallbackComposite e0, rfl⟩, ?_, ?_, ?_, ?_, ?_, ?_, ?_⟩
      · intro e he
        simp only [Except.error.injEq] at he
        rw [he]
      · intro e ⟨a, ha⟩ _
        exact absurd ha (by simp)
      · intro e ⟨a, ha⟩ _ _
        exact absurd ha (by simp)
      · intro a e ha _ _ _
        exact absurd ha (by simp)
      · intro a r e ha _ _ _ _
        exact absurd ha (by simp)
      · intro c e hr hm
        cases hr
        simp only [fallbackComposite, FullAnalysis.errorMarker.injEq] at hm
        rw [hm]
      · intro e
        exact ⟨rfl, rfl, rfl, rfl, rfl, rfl, rfl, rfl⟩
  case error.error.ok e0 e2 edet =>
      refine ⟨⟨fallbackComposite e0, rfl⟩, ?_, ?_, ?_, ?_, ?_, ?_, ?_⟩
      · intro e he
        simp only [Except.error.injEq] at he
        rw [he]
      · intro e ⟨a, ha⟩ _
        exact absurd ha (by simp)
      · intro e ⟨a, ha⟩ _ _
        exact absurd ha (by simp)
      · intro a e ha _ _ _
        exact absurd ha (by simp)
      · intro a r e ha _ _ _ _
        exact absurd ha (by simp)
      · intro c e hr hm
        cases hr
        simp only [fallbackComposite, FullAnalysis.errorMarker.injEq] at hm
        rw [hm]
      · intro e
        exact ⟨rfl, rfl, rfl, rfl, rfl, rfl, rfl, rfl⟩
  case error.error.error e0 e2 e3 =>
      refine ⟨⟨fallbackComposite e0, rfl⟩, ?_, ?_, ?_, ?_, ?_, ?_, ?_⟩
      · intro e he
        simp only [Except.error.injEq] at he
        rw [he]
      · intro e ⟨a, ha⟩ _
        exact absurd ha (by simp)
      · intro e ⟨a, ha⟩ _ _
        exact absurd ha (by simp)
      · intro a e ha _ _ _
        exact absurd ha (by simp)
      · intro a r e ha _ _ _ _
        exact absurd ha (by simp)
      · intro c e hr hm
        cases hr
        simp only [fallbackComposite, FullAnalysis.errorMarker.injEq] at hm
        rw [hm]
      · intro e
        exact ⟨rfl, rfl, rfl, rfl, rfl, rfl, rfl, rfl⟩
  case ok.error.ok pa e0 edet =>
      refine ⟨⟨fallbackComposite e0, rfl⟩, ?_, ?_, ?_, ?_, ?_, ?_, ?_⟩
      · intro e he
        exact absurd he (by simp)
      · intro e _ he
        simp only [Except.error.injEq] at he
        rw [he]
      · intro e _ ⟨s, hs⟩ _
        exact absurd hs (by simp)
      · intro a e _ ⟨s, hs⟩ _ _
        exact absurd hs (by simp)
      · intro a r e _ ⟨s, hs⟩ _ _ _
        exact absurd hs (by simp)
      · intro c e hr hm
        cases hr
        simp only [fallbackComposite, FullAnalysis.errorMarker.injEq] at hm
        rw [hm]
      · intro e
        exact ⟨rfl, rfl, rfl, rfl, rfl, rfl, rfl, rfl⟩
  case ok.error.error pa e0 e2 =>
      refine ⟨⟨fallbackComposite e0, rfl⟩, ?_, ?_, ?_, ?_, ?_, ?_, ?_⟩
      · intro e he
        exact absurd he (by simp)
      · intro e _ he
        simp only [Except.error.injEq] at he
        rw [he]
      · intro e _ ⟨s, hs⟩ _
        exact absurd hs (by simp)
      · intro a e _ ⟨s, hs⟩ _ _
        exact absurd hs (by simp)
      · intro a r e _ ⟨s, hs⟩ _ _ _
        exact absurd hs (by simp)
      · intro c e hr hm
        cases hr
        simp only [fallbackComposite, FullAnalysis.errorMarker.injEq] at hm
        rw [hm]
      · intro e
        exact ⟨rfl, rfl, rfl, rfl, rfl, rfl, rfl, rfl⟩
  case ok.ok.error pa sres e0 =>
      refine ⟨⟨fallbackComposite e0, rfl⟩, ?_, ?_, ?_, ?_, ?_, ?_, ?_⟩
      · intro e he
        exact absurd he (by simp)
      · intro e _ he
        exact absurd he (by simp)
      · intro e _ _ he
        simp only [Except.error.injEq] at he
        rw [he]
      · intro a e _ _ ⟨ed, hed⟩ _
        exact absurd hed (by simp)
      · intro a r e _ _ ⟨ed, hed⟩ _ _
        exact absurd hed (by simp)
      · intro c e hr hm
        cases hr
        simp only [fallbackComposite, FullAnalysis.errorMarker.injEq] at hm
        rw [hm]
      · intro e
        exact ⟨rfl, rfl, rfl, rfl, rfl, rfl, rfl, rfl⟩

/-- Witness for C1 at a concrete input: a client whose triage calls all
fail terminally drives the pipeline to the fallback for triage's
aggregate error, by the failing-step clause of the theorem. -/
theorem analyze_message_never_raises_fallback_shape_witness :
    (ChatOrchestrator.analyze_message triageDownOracle [] helloHistory).1 =
      Except.ok (fallbackComposite (PyError.serviceError "MAX_RETRIES_EXCEEDED"
        (PyError.openAIError "Triage analysis failed"))) :=
  (analyze_message_never_raises_fallback_shape triageDownOracle [] helloHistory
    [("content", "Hello")] rfl (by decide)).2.1 (PyError.serviceError "MAX_RETRIES_EXCEEDED"
      (PyError.openAIError "Triage analysis failed")) (by decide)

/-- C2 counterexample: a risk reply of level Low with score 95 passes the
code's validation (which checks only the `[0, 100]` range) and is returned
in the composite, although 95 is outside Low's band `[0, 39]` — the band
mismatch is not treated as a validation failure. -/
theorem risk_band_not_enforced :
    (ChatOrchestrator.analyze_message badRiskOracle [] helloHistory).1 =
      Except.ok
        { action := "RESPOND", risk_update := "Low", risk_score := 95
          sentiment := "Neutral", sentiment_score := 45
          response_to_send := some "Sure thing!"
          event_detection := ⟨some (JVal.jBool false), none, none, none⟩
          full_analysis := FullAnalysis.nominal "RESPOND" "Low" "Neutral"
            ⟨some (JVal.jBool false), none, none, none⟩ } ∧
    specRiskBand "Low" 95 = false := by
  decide

/-- C2 amended: every composite `analyze_message` returns has an
enumerated action, risk level and sentiment, and scores inside `[0, 100]`;
on the fallback path the scores are exactly High/100 and Neutral/50, which
do lie in their bands.  Band agreement between level and score is not
enforced on the nominal path. -/
theorem analyze_message_composite_ranges (o : Oracle) (ci : List (String × String))
    (h : List Msg) (c : Composite) (tr : List CallKind)
    (hres : ChatOrchestrator.analyze_message o ci h = (Except.ok c, tr)) :
    (c.action = "FLAG" ∨ c.action = "IGNORE" ∨ c.action = "RESPOND") ∧
    (c.risk_update = "High" ∨ c.risk_update = "Medium" ∨ c.risk_update = "Low") ∧
    0 ≤ c.risk_score ∧ c.risk_score ≤ 100 ∧
    (c.sentiment = "Positive" ∨ c.sentiment = "Neutral" ∨ c.sentiment = "Negative") ∧
    0 ≤ c.sentiment_score ∧ c.sentiment_score ≤ 100 ∧
    (c.full_analysis.isError = true →
      c.risk_score = 100 ∧ c.sentiment_score = 50 ∧
      specRiskBand c.risk_update c.risk_score = true ∧
      specSentimentBand c.sentiment c.sentiment_score = true) := by
  unfold ChatOrchestrator.analyze_message at hres
  cases hlast : h.getLast? with
  | none => rw [hlast] at hres; simp at hres
  | some last =>
      rw [hlast] at hres
      simp only [] at hres
      by_cases hempty : (last.lookup "content").getD "" = ""
      · rw [if_pos hempty] at hres; simp at hres
      · rw [if_neg hempty] at hres
        unfold assemblePipeline at hres
        cases htr : (runTriage o ((last.lookup "content").getD "")).result <;>
          cases hsr : (runSentiment o ((last.lookup "content").getD "")).result <;>
            cases her : (runEventDetection o ((last.lookup "content").getD "")).result <;>
              simp only [htr, hsr, her] at hres
        case neg.ok.ok.ok pa sres edet =>
            cases hrr : (runRisk o ((last.lookup "content").getD "") pa).result <;>
              simp only [hrr] at hres
            case error e =>
                simp only [Prod.mk.injEq, Except.ok.injEq] at hres
                obtain ⟨hc, -⟩ := hres
                subst hc
                exact ⟨Or.inl rfl, Or.inl rfl, by norm_num [fallbackComposite], by norm_num [fallbackComposite],
                  Or.inr (Or.inl rfl), by norm_num [fallbackComposite], by norm_num [fallbackComposite],
                  fun _ => ⟨rfl, rfl, rfl, rfl⟩⟩
            case ok rres =>
                cases hresp : (ResponseGenerator.generate o h pa rres.risk_update).result <;>
                  simp only [hresp] at hres
                case error e =>
                    simp only [Prod.mk.injEq, Except.ok.injEq] at hres
                    obtain ⟨hc, -⟩ := hres
                    subst hc
                    exact ⟨Or.inl rfl, Or.inl rfl, by norm_num [fallbackComposite], by norm_num [fallbackComposite],
                      Or.inr (Or.inl rfl), by norm_num [fallbackComposite], by norm_num [fallbackComposite],
                      fun _ => ⟨rfl, rfl, rfl, rfl⟩⟩
                case ok resp =>
                    simp only [Prod.mk.injEq, Except.ok.injEq] at hres
                    obtain ⟨hc, -⟩ := hres
                    subst hc
                    obtain ⟨hrisk1, hrisk2, hrisk3⟩ := runRisk_ok o _ pa rres hrr
                    obtain ⟨hsent1, hsent2, hsent3⟩ := runSentiment_ok o _ sres hsr
                    exact ⟨runTriage_ok o _ pa htr, hrisk1, hrisk2, hrisk3,
                      hsent1, hsent2, hsent3,
                      fun hiserr => by simp [FullAnalysis.isError] at hiserr⟩
        case neg.error.ok.ok e sres edet =>
            simp only [Prod.mk.injEq, Except.ok.injEq] at hres
            obtain ⟨hc, -⟩ := hres
            subst hc
            exact ⟨Or.inl rfl, Or.inl rfl, by norm_num [fallbackComposite], by norm_num [fallbackComposite],
              Or.inr (Or.inl rfl), by norm_num [fallbackComposite], by norm_num [fallbackComposite],
              fun _ => ⟨rfl, rfl, rfl, rfl⟩⟩
        case neg.error.ok.error e sres e2 =>
            simp only [Prod.mk.injEq, Except.ok.injEq] at hres
            obtain ⟨hc, -⟩ := hres
            subst hc
            exact ⟨Or.inl rfl, Or.inl rfl, by norm_num [fallbackComposite], by norm_num [fallbackComposite],
              Or.inr (Or.inl rfl), by norm_num [fallbackComposite], by norm_num [fallbackComposite],
              fun _ => ⟨rfl, rfl, rfl, rfl⟩⟩
        case neg.error.error.ok e e2 edet =>
            simp only [Prod.mk.injEq, Except.ok.injEq] at hres
            obtain ⟨hc, -⟩ := hres
            subst hc
            exact ⟨Or.inl rfl, Or.inl rfl, by norm_num [fallbackComposite], by norm_num [fallbackComposite],
              Or.inr (Or.inl rfl), by norm_num [fallbackComposite], by norm_num [fallbackComposite],
              fun _ => ⟨rfl, rfl, rfl, rfl⟩⟩
        case neg.error.error.error e e2 e3 =>
            simp only [Prod.mk.injEq, Except.ok.injEq] at hres
            obtain ⟨hc, -⟩ := hres
            subst hc
            exact ⟨Or.inl rfl, Or.inl rfl, by norm_num [fallbackComposite], by norm_num [fallbackComposite],
              Or.inr (Or.inl rfl), by norm_num [fallbackComposite], by norm_num [fallbackComposite],
              fun _ => ⟨rfl, rfl, rfl, rfl⟩⟩
        case neg.ok.error.ok pa e edet =>
            simp only [Prod.mk.injEq, Except.ok.injEq] at hres
            obtain ⟨hc, -⟩ := hres
            subst hc
            exact ⟨Or.inl rfl, Or.inl rfl, by norm_num [fallbackComposite], by norm_num [fallbackComposite],
              Or.inr (Or.inl rfl), by norm_num [fallbackComposite], by norm_num [fallbackComposite],
              fun _ => ⟨rfl, rfl, rfl, rfl⟩⟩
        case neg.ok.error.error pa e e2 =>
            simp only [Prod.mk.injEq, Except.ok.injEq] at hres
            obtain ⟨hc, -⟩ := hres
            subst hc
            exact ⟨Or.inl rfl, Or.inl rfl, by norm_num [fallbackComposite], by norm_num [fallbackComposite],
              Or.inr (Or.inl rfl), by norm_num [fallbackComposite], by norm_num [fallbackComposite],
              fun _ => ⟨rfl, rfl, rfl, rfl⟩⟩
        case neg.ok.ok.error pa sres e =>
            simp only [Prod.mk.injEq, Except.ok.injEq] at hres
            obtain ⟨hc, -⟩ := hres
            subst hc
            exact ⟨Or.inl rfl, Or.inl rfl, by norm_num [fallbackComposite], by norm_num [fallbackComposite],
              Or.inr (Or.inl rfl), by norm_num [fallbackComposite], by norm_num [fallbackComposite],
              fun _ => ⟨rfl, rfl, rfl, rfl⟩⟩

/-- When the gate holds, `generate` returns `None` without any call. -/
theorem generate_gate_none (o : Oracle) (h : List Msg) (pa ru : String)
    (hgate : (pa = "FLAG" ∧ ru = "High") ∨ pa = "IGNORE") :
    ResponseGenerator.generate o h pa ru = ⟨Except.ok none, 0⟩ := by
  unfold ResponseGenerator.generate
  rw [if_pos hgate]

/-- When the gate does not hold and the action is RESPOND or FLAG,
`generate` calls the client at least once and a successful result is
always an actual string, never `None`. -/
theorem generate_not_gate (o : Oracle) (h : List Msg) (pa ru : String)
    (hgate : ¬((pa = "FLAG" ∧ ru = "High") ∨ pa = "IGNORE"))
    (hpa : pa = "RESPOND" ∨ pa = "FLAG") :
    (∀ resp, (ResponseGenerator.generate o h pa ru).result = Except.ok resp → resp ≠ none) ∧
      1 ≤ (ResponseGenerator.generate o h pa ru).attempts := by
  unfold ResponseGenerator.generate
  rw [if_neg hgate, if_neg (not_not_intro hpa)]
  constructor
  · intro resp hr
    cases hrun : (runAgent (fun attempt => ResponseGenerator.generateOnce
        (o.response pa ((List.lookup "content" (h.getLast?.getD [])).getD "") attempt))).result <;>
      simp only [hrun] at hr
    case ok s =>
        cases hr
        simp
    case error e2 => simp at hr
  · exact runAgent_attempts_pos _

/-- `responseCall` occurs in the full success-path trace exactly when the
response stage issued at least one call. -/
theorem responseCall_mem_trace (o : Oracle) (m : String) (nrr nresp : Nat) :
    CallKind.responseCall ∈
        gatherTrace o m ++ List.replicate nrr CallKind.riskCall ++
          List.replicate nresp CallKind.responseCall ↔ 1 ≤ nresp := by
  simp only [gatherTrace, List.append_assoc, List.mem_append, List.mem_replicate]
  simp
  omega

/-- C3: in every composite `analyze_message` returns, the response field
is `None` exactly when the action is IGNORE or the action is FLAG with
risk High; moreover on the nominal path the response generator issues an
inference call exactly when that gate does not hold. -/
theorem response_none_iff_gate (o : Oracle) (ci : List (String × String))
    (h : List Msg) (c : Composite) (tr : List CallKind)
    (hres : ChatOrchestrator.analyze_message o ci h = (Except.ok c, tr)) :
    (c.response_to_send = none ↔
      (c.action = "IGNORE" ∨ (c.action = "FLAG" ∧ c.risk_update = "High"))) ∧
    (c.full_analysis.isError = false →
      ((CallKind.responseCall ∈ tr) ↔
        ¬(c.action = "IGNORE" ∨ (c.action = "FLAG" ∧ c.risk_update = "High")))) := by
  unfold ChatOrchestrator.analyze_message at hres
  cases hlast : h.getLast? with
  | none => rw [hlast] at hres; simp at hres
  | some last =>
      rw [hlast] at hres
      simp only [] at hres
      by_cases hempty : (last.lookup "content").getD "" = ""
      · rw [if_pos hempty] at hres; simp at hres
      · rw [if_neg hempty] at hres
        unfold assemblePipeline at hres
        cases htr : (runTriage o ((last.lookup "content").getD "")).result <;>
          cases hsr : (runSentiment o ((last.lookup "content").getD "")).result <;>
            cases her : (runEventDetection o ((last.lookup "content").getD "")).result <;>
              simp only [htr, hsr, her] at hres
        case neg.ok.ok.ok pa sres edet =>
            cases hrr : (runRisk o ((last.lookup "content").getD "") pa).result <;>
              simp only [hrr] at hres
            case error e =>
                simp only [Prod.mk.injEq, Except.ok.injEq] at hres
                obtain ⟨hc, -⟩ := hres
                subst hc
                refine ⟨⟨fun _ => Or.inr ⟨rfl, rfl⟩, fun _ => rfl⟩, fun hiserr => ?_⟩
                simp [fallbackComposite, FullAnalysis.isError] at hiserr
            case ok rres =>
                by_cases hgate : (pa = "FLAG" ∧ rres.risk_update = "High") ∨ pa = "IGNORE"
                · rw [generate_gate_none o h pa rres.risk_update hgate] at hres
                  simp only [Prod.mk.injEq, Except.ok.injEq] at hres
                  obtain ⟨hc, htrace⟩ := hres
                  subst hc
                  subst htrace
                  constructor
                  · simp only []
                    constructor
                    · intro _
                      rcases hgate with ⟨h1, h2⟩ | h1
                      · exact Or.inr ⟨h1, h2⟩
                      · exact Or.inl h1
                    · intro _; trivial
                  · intro _
                    rw [responseCall_mem_trace]
                    simp only []
                    constructor
                    · omega
                    · intro hng
                      exfalso
                      apply hng
                      rcases hgate with ⟨h1, h2⟩ | h1
                      · exact Or.inr ⟨h1, h2⟩
                      · exact Or.inl h1
                · have hpa3 := runTriage_ok o _ pa htr
                  have hpa : pa = "RESPOND" ∨ pa = "FLAG" := by
                    rcases hpa3 with h1 | h1 | h1
                    · exact Or.inr h1
                    · exact absurd (Or.inr h1) hgate
                    · exact Or.inl h1
                  obtain ⟨hnone, hatt⟩ := generate_not_gate o h pa rres.risk_update hgate hpa
                  cases hresp : (ResponseGenerator.generate o h pa rres.risk_update).result <;>
                    simp only [hresp] at hres
                  case neg.intro.error e =>
                      simp only [Prod.mk.injEq, Except.ok.injEq] at hres
                      obtain ⟨hc, -⟩ := hres
                      subst hc
                      refine ⟨⟨fun _ => Or.inr ⟨rfl, rfl⟩, fun _ => rfl⟩, fun hiserr => ?_⟩
                      simp [fallbackComposite, FullAnalysis.isError] at hiserr
                  case neg.intro.ok resp =>
                      simp only [Prod.mk.injEq, Except.ok.injEq] at hres
                      obtain ⟨hc, htrace⟩ := hres
                      subst hc
                      subst htrace
                      have hrespne := hnone resp hresp
                      constructor
                      · simp only []
                        constructor
                        · intro hn; exact absurd hn hrespne
                        · intro hga
                          exfalso
                          apply hgate
                          rcases hga with h1 | ⟨h1, h2⟩
                          · exact Or.inr h1
                          · exact Or.inl ⟨h1, h2⟩
                      · intro _
                        rw [responseCall_mem_trace]
                        simp only []
                        constructor
                        · intro _ hga
                          apply hgate
                          rcases hga with h1 | ⟨h1, h2⟩
                          · exact Or.inr h1
                          · exact Or.inl ⟨h1, h2⟩
                        · intro _
                          exact hatt
        case neg.error.ok.ok e sres edet =>
            simp only [Prod.mk.injEq, Except.ok.injEq] at hres
            obtain ⟨hc, -⟩ := hres
            subst hc
            refine ⟨⟨fun _ => Or.inr ⟨rfl, rfl⟩, fun _ => rfl⟩, fun hiserr => ?_⟩
            simp [fallbackComposite, FullAnalysis.isError] at hiserr
        case neg.error.ok.error e sres e2 =>
            simp only [Prod.mk.injEq, Except.ok.injEq] at hres
            obtain ⟨hc, -⟩ := hres
            subst hc
            refine ⟨⟨fun _ => Or.inr ⟨rfl, rfl⟩, fun _ => rfl⟩, fun hiserr => ?_⟩
            simp [fallbackComposite, FullAnalysis.isError] at hiserr
        case neg.error.error.ok e e2 edet =>
            simp only [Prod.mk.injEq, Except.ok.injEq] at hres
            obtain ⟨hc, -⟩ := hres
            subst hc
            refine ⟨⟨fun _ => Or.inr ⟨rfl, rfl⟩, fun _ => rfl⟩, fun hiserr => ?_⟩
            simp [fallbackComposite, FullAnalysis.isError] at hiserr
        case neg.error.error.error e e2 e3 =>
            simp only [Prod.mk.injEq, Except.ok.injEq] at hres
            obtain ⟨hc, -⟩ := hres
            subst hc
            refine ⟨⟨fun _ => Or.inr ⟨rfl, rfl⟩, fun _ => rfl⟩, fun hiserr => ?_⟩
            simp [fallbackComposite, FullAnalysis.isError] at hiserr
        case neg.ok.error.ok pa e edet =>
            simp only [Prod.mk.injEq, Except.ok.injEq] at hres
            obtain ⟨hc, -⟩ := hres
            subst hc
            refine ⟨⟨fun _ => Or.inr ⟨rfl, rfl⟩, fun _ => rfl⟩, fun hiserr => ?_⟩
            simp [fallbackComposite, FullAnalysis.isError] at hiserr
        case neg.ok.error.error pa e e2 =>
            simp only [Prod.mk.injEq, Except.ok.injEq] at hres
            obtain ⟨hc, -⟩ := hres
            subst hc
            refine ⟨⟨fun _ => Or.inr ⟨rfl, rfl⟩, fun _ => rfl⟩, fun hiserr => ?_⟩
            simp [fallbackComposite, FullAnalysis.isError] at hiserr
        case neg.ok.ok.error pa sres e =>
            simp only [Prod.mk.injEq, Except.ok.injEq] at hres
            obtain ⟨hc, -⟩ := hres
            subst hc
            refine ⟨⟨fun _ => Or.inr ⟨rfl, rfl⟩, fun _ => rfl⟩, fun hiserr => ?_⟩
            simp [fallbackComposite, FullAnalysis.isError] at hiserr

/-- Witness for C2 at a concrete input: the nominal composite for a
well-behaved client satisfies every range conclusion. -/
theorem analyze_message_composite_ranges_witness :
    (cOk.action = "FLAG" ∨ cOk.action = "IGNORE" ∨ cOk.action = "RESPOND") ∧
    (cOk.risk_update = "High" ∨ cOk.risk_update = "Medium" ∨ cOk.risk_update = "Low") ∧
    0 ≤ cOk.risk_score ∧ cOk.risk_score ≤ 100 ∧
    (cOk.sentiment = "Positive" ∨ cOk.sentiment = "Neutral" ∨ cOk.sentiment = "Negative") ∧
    0 ≤ cOk.sentiment_score ∧ cOk.sentiment_score ≤ 100 ∧
    (cOk.full_analysis.isError = true →
      cOk.risk_score = 100 ∧ cOk.sentiment_score = 50 ∧
      specRiskBand cOk.risk_update cOk.risk_score = true ∧
      specSentimentBand cOk.sentiment cOk.sentiment_score = true) :=
  analyze_message_composite_ranges okOracle [] helloHistory cOk okTrace (by decide)

/-- Witness for C3 at a concrete input: for the nominal RESPOND composite
the gate is open, the response is present, and a response call was made. -/
theorem response_none_iff_gate_witness :
    (cOk.response_to_send = none ↔
      (cOk.action = "IGNORE" ∨ (cOk.action = "FLAG" ∧ cOk.risk_update = "High"))) ∧
    (cOk.full_analysis.isError = false →
      ((CallKind.responseCall ∈ okTrace) ↔
        ¬(cOk.action = "IGNORE" ∨ (cOk.action = "FLAG" ∧ cOk.risk_update = "High")))) :=
  response_none_iff_gate okOracle [] helloHistory cOk okTrace (by decide)

/-- C4 counterexample: a last message whose text is the single space
character is not rejected — the orchestrator makes all five inference
calls and returns a nominal composite, because the emptiness check is
plain falsiness of the raw string, with no whitespace trimming. -/
theorem whitespace_message_not_rejected :
    ChatOrchestrator.analyze_message okOracle [] wsHistory = (Except.ok cOk, okTrace) ∧
      (ChatOrchestrator.analyze_message okOracle [] wsHistory).2 ≠ [] := by
  decide

/-- C4 amended: `analyze_message` raises `ValidationError` with zero
inference calls exactly for an empty history or a last entry whose
`content` value (defaulted to the empty string) is the empty string —
untrimmed, so whitespace-only content proceeds to the pipeline. -/
theorem empty_content_validation (o : Oracle) (ci : List (String × String)) (h : List Msg) :
    (h.getLast? = none →
      ChatOrchestrator.analyze_message o ci h =
        (Except.error (PyError.validationError "Conversation history cannot be empty"), [])) ∧
    (∀ last, h.getLast? = some last → (last.lookup "content").getD "" = "" →
      ChatOrchestrator.analyze_message o ci h =
        (Except.error (PyError.validationError "Current message content is empty"), [])) := by
  constructor
  · intro hn
    unfold ChatOrchestrator.analyze_message
    simp only [hn]
  · intro last hl he
    unfold ChatOrchestrator.analyze_message
    simp only [hl]
    rw [if_pos he]

/-- Witness for the amended C4: the literally-empty message is rejected
before any call. -/
theorem empty_content_validation_witness :
    ChatOrchestrator.analyze_message okOracle [] [[("content", "")]] =
      (Except.error (PyError.validationError "Current message content is empty"), []) :=
  (empty_content_validation okOracle [] [[("content", "")]]).2 [("content", "")] rfl rfl

/-- C10: the last message's text is read exclusively from the `content`
key; a last entry with no `content` key (whatever other keys it has) is
treated as empty — `ValidationError`, zero inference calls. -/
theorem missing_content_key_rejected (o : Oracle) (ci : List (String × String))
    (h : List Msg) (last : Msg) (h1 : h.getLast? = some last)
    (h2 : last.lookup "content" = none) :
    ChatOrchestrator.analyze_message o ci h =
      (Except.error (PyError.validationError "Current message content is empty"), []) := by
  unfold ChatOrchestrator.analyze_message
  simp only [h1]
  rw [if_pos (by rw [h2]; rfl)]

/-- Witness for C10: a message stored under the `body` key (accepted by
`format_messages_for_openai` but not by `analyze_message`) is rejected. -/
theorem missing_content_key_rejected_witness :
    ChatOrchestrator.analyze_message okOracle [] [[("body", "hi")]] =
      (Except.error (PyError.validationError "Current message content is empty"), []) :=
  missing_content_key_rejected okOracle [] [[("body", "hi")]] [("body", "hi")] rfl rfl

/-- C5: full contract of `retry_with_backoff`: at most `max_retries + 1`
invocations; every attempt before the last failed with a caught error;
the sleeps are exactly `backoff_factor * 2 ^ i` for attempt indices `i`;
a success is the last attempt's value unchanged; exhaustion is a single
aggregate error wrapping the last underlying error after exactly
`max_retries + 1` attempts; an uncaught error propagates as itself. -/
theorem retry_with_backoff_spec {E α : Type} (max_retries : Nat) (backoff_factor : ℚ)
    (catches : E → Bool) (op : Nat → Except E α) :
    1 ≤ (retry_with_backoff max_retries backoff_factor catches op).attempts ∧
    (retry_with_backoff max_retries backoff_factor catches op).attempts ≤ max_retries + 1 ∧
    (retry_with_backoff max_retries backoff_factor catches op).delays =
      (List.range ((retry_with_backoff max_retries backoff_factor catches op).attempts - 1)).map
        (fun i => backoff_factor * 2 ^ i) ∧
    (∀ j, j + 1 < (retry_with_backoff max_retries backoff_factor catches op).attempts →
      ∃ e, op j = Except.error e ∧ catches e = true) ∧
    (∀ x, (retry_with_backoff max_retries backoff_factor catches op).result = Except.ok x →
      op ((retry_with_backoff max_retries backoff_factor catches op).attempts - 1) =
        Except.ok x) ∧
    (∀ e, (retry_with_backoff max_retries backoff_factor catches op).result =
        Except.error (RetryErr.maxRetriesExceeded e) →
      (retry_with_backoff max_retries backoff_factor catches op).attempts = max_retries + 1 ∧
        op max_retries = Except.error e ∧ catches e = true) ∧
    (∀ e, (retry_with_backoff max_retries backoff_factor catches op).result =
        Except.error (RetryErr.reraised e) →
      op ((retry_with_backoff max_retries backoff_factor catches op).attempts - 1) =
        Except.error e ∧ catches e = false) := by
  unfold retry_with_backoff
  refine ⟨retryGo_attempts_pos op catches backoff_factor 0 max_retries,
    retryGo_attempts_le op catches backoff_factor 0 max_retries, ?_, ?_, ?_, ?_, ?_⟩
  · have hd := retryGo_delays op catches backoff_factor 0 max_retries
    rw [hd]
    refine List.map_congr_left fun i _ => ?_
    rw [Nat.zero_add]
  · intro j hj
    have := retryGo_earlier op catches backoff_factor 0 max_retries j hj
    simpa using this
  · intro x hx
    have := retryGo_ok op catches backoff_factor 0 max_retries x hx
    simpa using this
  · intro e he
    have := retryGo_exhausted op catches backoff_factor 0 max_retries e he
    simpa using this
  · intro e he
    have := retryGo_reraised op catches backoff_factor 0 max_retries e he
    simpa using this

/-- Witness for C5 at a concrete operation that fails twice and then
succeeds: three attempts, delays 1 and 2 seconds, the value returned
unchanged; attempt 0 indeed failed with a caught error. -/
theorem retry_with_backoff_spec_witness :
    (retry_with_backoff 3 1 (fun _ => true) retryDemoOp).attempts = 3 ∧
    (retry_with_backoff 3 1 (fun _ => true) retryDemoOp).result = Except.ok 42 ∧
    (retry_with_backoff 3 1 (fun _ => true) retryDemoOp).delays = [1, 2] ∧
    (∃ e, retryDemoOp 0 = Except.error e ∧ (fun _ : String => true) e = true) :=
  ⟨by decide, by decide, by norm_num [retry_with_backoff, retryGo, retryDemoOp],
    (retry_with_backoff_spec 3 1 (fun _ => true) retryDemoOp).2.2.2.1 0 (by decide)⟩

/-- An operation that fails identically on every attempt with a caught
error exhausts the retry budget: `r + 1` attempts, aggregate error. -/
theorem retryGo_const_error {E α : Type} (op : Nat → Except E α) (catches : E → Bool)
    (f : ℚ) (e : E) (hop : ∀ n, op n = Except.error e) (hc : catches e = true)
    (a r : Nat) :
    (retryGo op catches f a r).result = Except.error (RetryErr.maxRetriesExceeded e) ∧
      (retryGo op catches f a r).attempts = r + 1 := by
  induction r generalizing a with
  | zero =>
      unfold retryGo
      simp [hop a, hc]
  | succ n ih =>
      unfold retryGo
      obtain ⟨h1, h2⟩ := ih (a + 1)
      simp [hop a, hc, h1, h2]

/-- C6 counterexample: a triage reply carrying a non-enumerated action is
a validation failure of the model's output, yet the retrier — configured
with `exceptions=(Exception,)` — retries it: four inference calls are
made, not one. -/
theorem validation_failure_retried_counterexample :
    (runTriage badTriageOracle "Hello").attempts = 4 ∧
      (ChatOrchestrator.analyze_message badTriageOracle [] helloHistory).2.count
        CallKind.triageCall = 4 := by
  decide

/-- C6 amended: because the decorator's exception set is `(Exception,)`,
an out-of-contract triage value on every attempt is retried like any
other failure: exactly `max_retries + 1 = 4` inference calls, then a
single aggregate `ServiceError`. -/
theorem invalid_output_retried (o : Oracle) (m s : String)
    (hs : ¬(s = "FLAG" ∨ s = "IGNORE" ∨ s = "RESPOND"))
    (hor : ∀ n, o.triage m n = AgentInput.parsed (some (JVal.jStr s))) :
    (runTriage o m).attempts = 4 ∧
      (runTriage o m).result = Except.error (PyError.serviceError "MAX_RETRIES_EXCEEDED"
        (PyError.openAIError "Triage analysis failed: Invalid triage action")) := by
  have hop : ∀ n, TriageAgent.analyzeOnce (o.triage m n) =
      Except.error (PyError.openAIError "Triage analysis failed: Invalid triage action") := by
    intro n
    rw [hor n]
    exact if_neg hs
  obtain ⟨hres, hatt⟩ := retryGo_const_error
    (fun n => TriageAgent.analyzeOnce (o.triage m n)) (fun _ => true) 1 _ hop rfl 0 3
  unfold runTriage runAgent retry_with_backoff
  exact ⟨hatt, by simp only [hres]⟩

/-- Witness for the amended C6 at a concrete out-of-contract value. -/
theorem invalid_output_retried_witness :
    (runTriage badTriageOracle "Hello").attempts = 4 ∧
      (runTriage badTriageOracle "Hello").result =
        Except.error (PyError.serviceError "MAX_RETRIES_EXCEEDED"
          (PyError.openAIError "Triage analysis failed: Invalid triage action")) :=
  invalid_output_retried badTriageOracle "Hello" "MAYBE" (by decide) (fun _ => rfl)

/-- C7 counterexample: an event-detection reply with `has_event` false
and a non-null `internal_note` is returned unchanged — presence of an
optional field alongside `has_event = false` is not a validation
failure. -/
theorem event_optional_field_passthrough :
    EventDetectionAgent.analyzeOnce (AgentInput.parsed eventRawBad) = Except.ok eventRawBad ∧
      eventRawBad.has_event = some (JVal.jBool false) ∧
      eventRawBad.internal_note = some (JVal.jStr "note") := by
  decide

/-- C7 amended: `EventDetectionAgent.analyze` accepts a parsed reply
exactly when its `has_event` field (defaulted to false) is a boolean; the
optional fields are passed through without any null check. -/
theorem event_detection_validates_only_has_event (raw : EventRaw) :
    EventDetectionAgent.analyzeOnce (AgentInput.parsed raw) = Except.ok raw ↔
      (raw.has_event.getD (JVal.jBool false)).isBool = true := by
  unfold EventDetectionAgent.analyzeOnce
  cases hhe : raw.has_event.getD (JVal.jBool false) <;> simp [hhe, JVal.isBool]

/-- Witness for the amended C7 at the concrete passthrough reply. -/
theorem event_detection_validates_only_has_event_witness :
    (eventRawBad.has_event.getD (JVal.jBool false)).isBool = true :=
  (event_detection_validates_only_has_event eventRawBad).mp (by decide)

/-- C9: the result (composite and trace) depends on the conversation
history only through its last entry, and not on `client_info` at all: two
calls againt the same inference client whose histories share the last
entry return identical results. -/
theorem last_entry_determines_result (o : Oracle) (ci ci' : List (String × String))
    (h h' : List Msg) (hl : h.getLast? = h'.getLast?) :
    ChatOrchestrator.analyze_message o ci h = ChatOrchestrator.analyze_message o ci' h' := by
  have hgen : ∀ pa ru, ResponseGenerator.generate o h pa ru =
      ResponseGenerator.generate o h' pa ru := by
    intro pa ru
    unfold ResponseGenerator.generate
    rw [hl]
  have hasm : ∀ cm, assemblePipeline o h cm = assemblePipeline o h' cm := by
    intro cm
    unfold assemblePipeline
    simp only [hgen]
  unfold ChatOrchestrator.analyze_message
  rw [hl]
  simp only [hasm]

/-- Witness for C9: dropping the earlier turns and changing the client
info leaves the result unchanged. -/
theorem last_entry_determines_result_witness :
    ChatOrchestrator.analyze_message okOracle [("client_id", "A")]
        [[("content", "older")], [("content", "Hello")]] =
      ChatOrchestrator.analyze_message okOracle [("client_id", "B")] helloHistory :=
  last_entry_determines_result okOracle [("client_id", "A")] [("client_id", "B")]
    [[("content", "older")], [("content", "Hello")]] helloHistory rfl

theorem riskCall_not_mem_gatherTrace (o : Oracle) (m : String) :
    CallKind.riskCall ∉ gatherTrace o m := by
  simp [gatherTrace, List.mem_append, List.mem_replicate]

theorem responseCall_not_mem_gatherTrace (o : Oracle) (m : String) :
    CallKind.responseCall ∉ gatherTrace o m := by
  simp [gatherTrace, List.mem_append, List.mem_replicate]

/-- In a trace split as `A ++ B` with no risk call in `A` and no triage
call in `B`, every triage-call position precedes every risk-call
position. -/
theorem triage_lt_risk_of_split (A B : List CallKind)
    (hA : CallKind.riskCall ∉ A) (hB : CallKind.triageCall ∉ B) :
    ∀ i j, (A ++ B).get? i = some CallKind.triageCall →
      (A ++ B).get? j = some CallKind.riskCall → i < j := by
  intro i j hti htj
  rw [List.get?_eq_some] at hti htj
  obtain ⟨hi, hti⟩ := hti
  obtain ⟨hj, htj⟩ := htj
  rw [List.get_eq_getElem] at hti htj
  have hiA : i < A.length := by
    by_contra hc
    push_neg at hc
    have heq := @List.getElem_append_right _ A B i hc hi
    rw [heq] at hti
    exact hB (hti ▸ List.getElem_mem _)
  have hjA : A.length ≤ j := by
    by_contra hc
    push_neg at hc
    have heq := @List.getElem_append_left _ j A B hc hj
    rw [heq] at htj
    exact hA (htj ▸ List.getElem_mem _)
  omega

/-- C8: risk analysis starts only after triage's result is resolved and
receives that resolved action as input; if triage fails terminally the
risk agent is never invoked and the pipeline short-circuits to the
fallback; response generation starts only after the risk result is
resolved; and in the call trace every triage call precedes every risk
call. -/
theorem risk_only_after_triage (o : Oracle) (ci : List (String × String))
    (h : List Msg) (last : Msg) (h1 : h.getLast? = some last)
    (h2 : (last.lookup "content").getD "" ≠ "") :
    (∀ e, (runTriage o ((last.lookup "content").getD "")).result = Except.error e →
      CallKind.riskCall ∉ (ChatOrchestrator.analyze_message o ci h).2 ∧
        (ChatOrchestrator.analyze_message o ci h).1 = Except.ok (fallbackComposite e)) ∧
    (CallKind.riskCall ∈ (ChatOrchestrator.analyze_message o ci h).2 →
      ∃ a, (runTriage o ((last.lookup "content").getD "")).result = Except.ok a ∧
        ((ChatOrchestrator.analyze_message o ci h).2).count CallKind.riskCall =
          (runRisk o ((last.lookup "content").getD "") a).attempts) ∧
    (CallKind.responseCall ∈ (ChatOrchestrator.analyze_message o ci h).2 →
      ∃ a rres, (runTriage o ((last.lookup "content").getD "")).result = Except.ok a ∧
        (runRisk o ((last.lookup "content").getD "") a).result = Except.ok rres) ∧
    (∀ i j, ((ChatOrchestrator.analyze_message o ci h).2).get? i =
        some CallKind.triageCall →
      ((ChatOrchestrator.analyze_message o ci h).2).get? j = some CallKind.riskCall →
        i < j) := by
  unfold ChatOrchestrator.analyze_message
  simp only [h1]
  rw [if_neg h2]
  unfold assemblePipeline
  cases htr : (runTriage o ((last.lookup "content").getD "")).result <;>
    cases hsr : (runSentiment o ((last.lookup "content").getD "")).result <;>
      cases her : (runEventDetection o ((last.lookup "content").getD "")).result <;>
        simp only [htr, hsr, her]
  case ok.ok.ok pa sres edet =>
      cases hrr : (runRisk o ((last.lookup "content").getD "") pa).result <;> simp only [hrr]
      case error e =>
          refine ⟨?_, ?_, ?_, ?_⟩
          · intro e2 he2
            exact absurd he2 (by simp)
          · intro _
            refine ⟨pa, rfl, ?_⟩
            simp [List.count_append, List.count_replicate,
              List.count_eq_zero.mpr (riskCall_not_mem_gatherTrace o _)]
          · intro hmem
            rcases List.mem_append.mp hmem with hm | hm
            · exact absurd hm (responseCall_not_mem_gatherTrace o _)
            · rcases List.mem_replicate.mp hm with ⟨-, hk⟩
              exact absurd hk (by simp)
          · exact triage_lt_risk_of_split (gatherTrace o _) _
              (riskCall_not_mem_gatherTrace o _)
              (by simp [List.mem_replicate])
      case ok rres =>
          cases hresp : (ResponseGenerator.generate o h pa rres.risk_update).result <;>
            simp only [hresp]
          all_goals
            rw [List.append_assoc]
            refine ⟨?_, ?_, ?_, ?_⟩
            · intro e2 he2
              exact absurd he2 (by simp)
            · intro _
              refine ⟨pa, rfl, ?_⟩
              simp [List.count_append, List.count_replicate,
                List.count_eq_zero.mpr (riskCall_not_mem_gatherTrace o _)]
            · intro _
              exact ⟨pa, rres, rfl, hrr⟩
            · exact triage_lt_risk_of_split (gatherTrace o _) _
                (riskCall_not_mem_gatherTrace o _)
                (by simp [List.mem_append, List.mem_replicate])
  case error.ok.ok e sres edet =>
      refine ⟨?_, ?_, ?_, ?_⟩
      · intro e2 he2
        simp only [Except.error.injEq] at he2
        subst he2
        exact ⟨riskCall_not_mem_gatherTrace o _, rfl⟩
      · intro hmem
        exact absurd hmem (riskCall_not_mem_gatherTrace o _)
      · intro hmem
        exact absurd hmem (responseCall_not_mem_gatherTrace o _)
      · have hsplit := triage_lt_risk_of_split (gatherTrace o ((last.lookup "content").getD ""))
          [] (riskCall_not_mem_gatherTrace o _) (by simp)
        rw [List.append_nil] at hsplit
        exact hsplit
  case error.ok.error e sres e2 =>
      refine ⟨?_, ?_, ?_, ?_⟩
      · intro e3 he3
        simp only [Except.error.injEq] at he3
        subst he3
        exact ⟨riskCall_not_mem_gatherTrace o _, rfl⟩
      · intro hmem
        exact absurd hmem (riskCall_not_mem_gatherTrace o _)
      · intro hmem
        exact absurd hmem (responseCall_not_mem_gatherTrace o _)
      · have hsplit := triage_lt_risk_of_split (gatherTrace o ((last.lookup "content").getD ""))
          [] (riskCall_not_mem_gatherTrace o _) (by simp)
        rw [List.append_nil] at hsplit
        exact hsplit
  case error.error.ok e e2 edet =>
      refine ⟨?_, ?_, ?_, ?_⟩
      · intro e3 he3
        simp only [Except.error.injEq] at he3
        subst he3
        exact ⟨riskCall_not_mem_gatherTrace o _, rfl⟩
      · intro hmem
        exact absurd hmem (riskCall_not_mem_gatherTrace o _)
      · intro hmem
        exact absurd hmem (responseCall_not_mem_gatherTrace o _)
      · have hsplit := triage_lt_risk_of_split (gatherTrace o ((last.lookup "content").getD ""))
          [] (riskCall_not_mem_gatherTrace o _) (by simp)
        rw [List.append_nil] at hsplit
        exact hsplit
  case error.error.error e e2 e3 =>
      refine ⟨?_, ?_, ?_, ?_⟩
      · intro e4 he4
        simp only [Except.error.injEq] at he4
        subst he4
        exact ⟨riskCall_not_mem_gatherTrace o _, rfl⟩
      · intro hmem
        exact absurd hmem (riskCall_not_mem_gatherTrace o _)
      · intro hmem
        exact absurd hmem (responseCall_not_mem_gatherTrace o _)
      · have hsplit := triage_lt_risk_of_split (gatherTrace o ((last.lookup "content").getD ""))
          [] (riskCall_not_mem_gatherTrace o _) (by simp)
        rw [List.append_nil] at hsplit
        exact hsplit
  case ok.error.ok pa e edet =>
      refine ⟨?_, ?_, ?_, ?_⟩
      · intro e3 he3
        exact absurd he3 (by simp)
      · intro hmem
        exact absurd hmem (riskCall_not_mem_gatherTrace o _)
      · intro hmem
        exact absurd hmem (responseCall_not_mem_gatherTrace o _)
      · have hsplit := triage_lt_risk_of_split (gatherTrace o ((last.lookup "content").getD ""))
          [] (riskCall_not_mem_gatherTrace o _) (by simp)
        rw [List.append_nil] at hsplit
        exact hsplit
  case ok.error.error pa e e2 =>
      refine ⟨?_, ?_, ?_, ?_⟩
      · intro e3 he3
        exact absurd he3 (by simp)
      · intro hmem
        exact absurd hmem (riskCall_not_mem_gatherTrace o _)
      · intro hmem
        exact absurd hmem (responseCall_not_mem_gatherTrace o _)
      · have hsplit := triage_lt_risk_of_split (gatherTrace o ((last.lookup "content").getD ""))
          [] (riskCall_not_mem_gatherTrace o _) (by simp)
        rw [List.append_nil] at hsplit
        exact hsplit
  case ok.ok.error pa sres e =>
      refine ⟨?_, ?_, ?_, ?_⟩
      · intro e3 he3
        exact absurd he3 (by simp)
      · intro hmem
        exact absurd hmem (riskCall_not_mem_gatherTrace o _)
      · intro hmem
        exact absurd hmem (responseCall_not_mem_gatherTrace o _)
      · have hsplit := triage_lt_risk_of_split (gatherTrace o ((last.lookup "content").getD ""))
          [] (riskCall_not_mem_gatherTrace o _) (by simp)
        rw [List.append_nil] at hsplit
        exact hsplit

/-- Witness for C8 at a concrete input where triage fails terminally:
no risk call appears in the trace and the result is the fallback. -/
theorem risk_only_after_triage_witness :
    CallKind.riskCall ∉ (ChatOrchestrator.analyze_message triageDownOracle [] helloHistory).2 ∧
      (ChatOrchestrator.analyze_message triageDownOracle [] helloHistory).1 =
        Except.ok (fallbackComposite (PyError.serviceError "MAX_RETRIES_EXCEEDED"
          (PyError.openAIError "Triage analysis failed"))) :=
  (risk_only_after_triage triageDownOracle [] helloHistory [("content", "Hello")] rfl
    (by decide)).1 (PyError.serviceError "MAX_RETRIES_EXCEEDED"
      (PyError.openAIError "Triage analysis failed")) (by decide)

end ChatAnalysis
